import Mathlib

/-!
Verification of the SmartWave FPGA register model (semify-eda/SmartWave_demos).

The development embeds the static register/pin tables of
`python_scripts/fpga_reg.py` (class `FPGA_Reg`) as Lean data, together with
the write sequences issued by the bring-up script
`python_scripts/mcp9808_sens_emulation.py`, and proves the specified
properties of the table and of the generic register/bitfield access model.
-/

namespace FPGA_Reg

/-- A named bitfield entry of a register: a `{"MSB": _, "LSB": _}` sub-dict
of `FPGA_Reg.registers` keyed by its field name. -/
structure RegField where
  fname : String
  MSB : Nat
  LSB : Nat
deriving DecidableEq

/-- One register entry of a module in `FPGA_Reg.registers`: its dict key
(`rname`), its `addr` value, its field sub-dicts (`fields`), its enumerant
entries (`choices`, the integer-valued keys other than `addr`/`MSB`/`LSB`,
present only in the interconnect selector registers), and the
register-level `MSB`/`LSB` keys of selector registers. -/
structure Reg where
  rname : String
  addr : Nat
  fields : List RegField
  choices : List (String × Nat)
  selMsb : Option Nat
  selLsb : Option Nat
deriving DecidableEq

/-- A module of `FPGA_Reg.registers`: one top-level key and its register
dict, in source order. -/
structure RegModule where
  mname : String
  regs : List Reg
deriving DecidableEq

/-- Error taxonomy of the spec (§7). -/
inductive RegError where
  | UnknownModule
  | UnknownRegister
  | UnknownField
  | UnknownRoute
  | LaneOutOfRange
  | ValueOutOfRange
  | MalformedTable
deriving DecidableEq

instance {e a : Type} [DecidableEq e] [DecidableEq a] : DecidableEq (Except e a) := fun x y =>
  match x, y with
  | .ok v, .ok w =>
    if h : v = w then isTrue (by rw [h]) else isFalse (by intro he; cases he; exact h rfl)
  | .error v, .error w =>
    if h : v = w then isTrue (by rw [h]) else isFalse (by intro he; cases he; exact h rfl)
  | .ok _, .error _ => isFalse (by intro h; cases h)
  | .error _, .ok _ => isFalse (by intro h; cases h)

def output_pins : List (String × Nat) := [
  ("wfg_drive_spi_top_0_sclk", 32),
  ("wfg_drive_spi_top_0_cs", 31),
  ("wfg_drive_spi_top_0_dout", 30),
  ("wfg_drive_spi_top_1_sclk", 29),
  ("wfg_drive_spi_top_1_cs", 28),
  ("wfg_drive_spi_top_1_dout", 27),
  ("wfg_drive_pat_top_0_output_0", 26),
  ("wfg_drive_pat_top_0_output_1", 25),
  ("wfg_drive_pat_top_0_output_2", 24),
  ("wfg_drive_pat_top_0_output_3", 23),
  ("wfg_drive_pat_top_0_output_4", 22),
  ("wfg_drive_pat_top_0_output_5", 21),
  ("wfg_drive_pat_top_0_output_6", 20),
  ("wfg_drive_pat_top_0_output_7", 19),
  ("wfg_drive_pat_top_0_output_8", 18),
  ("wfg_drive_pat_top_0_output_9", 17),
  ("wfg_drive_pat_top_0_output_10", 16),
  ("wfg_drive_pat_top_0_output_11", 15),
  ("wfg_drive_pat_top_0_output_12", 14),
  ("wfg_drive_pat_top_0_output_13", 13),
  ("wfg_drive_pat_top_0_output_14", 12),
  ("wfg_drive_pat_top_0_output_15", 11),
  ("wfg_drive_i2c_top_0_scl", 10),
  ("wfg_drive_i2c_top_0_sda", 9),
  ("wfg_drive_i2c_top_1_scl", 8),
  ("wfg_drive_i2c_top_1_sda", 7),
  ("wfg_drive_i2ct_top_0_scl", 6),
  ("wfg_drive_i2ct_top_0_sda", 5),
  ("wfg_drive_uart_top_0_tx", 4),
  ("wfg_drive_uart_top_1_tx", 3)
]

def input_pins : List (String × Nat) := [
  ("wfg_drive_spi_top_0_din", 9),
  ("wfg_drive_spi_top_1_din", 8),
  ("wfg_drive_i2c_top_0_scl", 7),
  ("wfg_drive_i2c_top_0_sda", 6),
  ("wfg_drive_i2c_top_1_scl", 5),
  ("wfg_drive_i2c_top_1_sda", 4),
  ("wfg_drive_i2ct_top_0_scl", 3),
  ("wfg_drive_i2ct_top_0_sda", 2),
  ("wfg_drive_uart_top_0_rx", 1),
  ("wfg_drive_uart_top_1_rx", 0)
]

def registers : List RegModule := [
  { mname := "wfg_interconnect_top", regs := [
    { rname := "wfg_drive_spi_top_0_select_0", addr := 0x44000,
      fields := [],
      choices := [("disconnect", 0x0), ("wfg_stim_mem_top_0", 0x1), ("wfg_stim_mem_top_1", 0x2), ("wfg_stim_mem_top_2", 0x3), ("wfg_stim_mem_top_3", 0x4)],
      selMsb := some 7, selLsb := some 0 },
    { rname := "wfg_drive_spi_top_1_select_0", addr := 0x44001,
      fields := [],
      choices := [("disconnect", 0x0), ("wfg_stim_mem_top_0", 0x1), ("wfg_stim_mem_top_1", 0x2), ("wfg_stim_mem_top_2", 0x3), ("wfg_stim_mem_top_3", 0x4)],
      selMsb := some 7, selLsb := some 0 },
    { rname := "wfg_drive_pat_top_0_select_0", addr := 0x44010,
      fields := [],
      choices := [("disconnect", 0x0), ("wfg_stim_mem_top_0", 0x1), ("wfg_stim_mem_top_1", 0x2), ("wfg_stim_mem_top_2", 0x3), ("wfg_stim_mem_top_3", 0x4)],
      selMsb := some 7, selLsb := some 0 },
    { rname := "wfg_drive_i2c_top_0_select_0", addr := 0x44020,
      fields := [],
      choices := [("disconnect", 0x0), ("wfg_stim_mem_top_0", 0x1), ("wfg_stim_mem_top_1", 0x2), ("wfg_stim_mem_top_2", 0x3), ("wfg_stim_mem_top_3", 0x4)],
      selMsb := some 7, selLsb := some 0 },
    { rname := "wfg_drive_i2c_top_1_select_0", addr := 0x44021,
      fields := [],
      choices := [("disconnect", 0x0), ("wfg_stim_mem_top_0", 0x1), ("wfg_stim_mem_top_1", 0x2), ("wfg_stim_mem_top_2", 0x3), ("wfg_stim_mem_top_3", 0x4)],
      selMsb := some 7, selLsb := some 0 },
    { rname := "wfg_drive_uart_top_0_select_0", addr := 0x44030,
      fields := [],
      choices := [("disconnect", 0x0), ("wfg_stim_mem_top_0", 0x1), ("wfg_stim_mem_top_1", 0x2), ("wfg_stim_mem_top_2", 0x3), ("wfg_stim_mem_top_3", 0x4)],
      selMsb := some 7, selLsb := some 0 },
    { rname := "wfg_drive_uart_top_1_select_0", addr := 0x44031,
      fields := [],
      choices := [("disconnect", 0x0), ("wfg_stim_mem_top_0", 0x1), ("wfg_stim_mem_top_1", 0x2), ("wfg_stim_mem_top_2", 0x3), ("wfg_stim_mem_top_3", 0x4)],
      selMsb := some 7, selLsb := some 0 },
    { rname := "wfg_record_mem_top_0_select_0", addr := 0x440f0,
      fields := [],
      choices := [("disconnect", 0x0), ("wfg_drive_spi_top_0", 0x1), ("wfg_drive_spi_top_1", 0x2), ("wfg_drive_pat_top_0", 0x11), ("wfg_drive_i2c_top_0", 0x21), ("wfg_drive_i2c_top_1", 0x22), ("wfg_drive_i2ct_top_0", 0x21), ("wfg_drive_uart_top_0", 0x31), ("wfg_drive_uart_top_1", 0x32)],
      selMsb := some 7, selLsb := some 0 },
    { rname := "wfg_record_mem_top_1_select_0", addr := 0x440f1,
      fields := [],
      choices := [("disconnect", 0x0), ("wfg_drive_spi_top_0", 0x1), ("wfg_drive_spi_top_1", 0x2), ("wfg_drive_pat_top_0", 0x11), ("wfg_drive_i2c_top_0", 0x21), ("wfg_drive_i2c_top_1", 0x22), ("wfg_drive_i2ct_top_0", 0x21), ("wfg_drive_uart_top_0", 0x31), ("wfg_drive_uart_top_1", 0x32)],
      selMsb := some 7, selLsb := some 0 },
    { rname := "wfg_record_mem_top_2_select_0", addr := 0x440f2,
      fields := [],
      choices := [("disconnect", 0x0), ("wfg_drive_spi_top_0", 0x1), ("wfg_drive_spi_top_1", 0x2), ("wfg_drive_pat_top_0", 0x11), ("wfg_drive_i2c_top_0", 0x21), ("wfg_drive_i2c_top_1", 0x22), ("wfg_drive_i2ct_top_0", 0x21), ("wfg_drive_uart_top_0", 0x31), ("wfg_drive_uart_top_1", 0x32)],
      selMsb := some 7, selLsb := some 0 },
    { rname := "wfg_record_mem_top_3_select_0", addr := 0x440f3,
      fields := [],
      choices := [("disconnect", 0x0), ("wfg_drive_spi_top_0", 0x1), ("wfg_drive_spi_top_1", 0x2), ("wfg_drive_pat_top_0", 0x11), ("wfg_drive_i2c_top_0", 0x21), ("wfg_drive_i2c_top_1", 0x22), ("wfg_drive_i2ct_top_0", 0x21), ("wfg_drive_uart_top_0", 0x31), ("wfg_drive_uart_top_1", 0x32)],
      selMsb := some 7, selLsb := some 0 }
  ] },
  { mname := "wfg_core_top", regs := [
    { rname := "CTRL", addr := 0x40000,
      fields := [⟨"EN", 0, 0⟩],
      choices := [],
      selMsb := none, selLsb := none },
    { rname := "CFG", addr := 0x40004,
      fields := [⟨"SYNC", 15, 0⟩, ⟨"SUBCYCLE", 31, 16⟩],
      choices := [],
      selMsb := none, selLsb := none },
    { rname := "MODULE_INFO", addr := 0x400fc,
      fields := [⟨"PATCH", 7, 0⟩, ⟨"MINOR", 15, 8⟩, ⟨"MAJOR", 23, 16⟩, ⟨"TYPE", 27, 27⟩, ⟨"BLOCK", 31, 28⟩],
      choices := [],
      selMsb := none, selLsb := none }
  ] },
  { mname := "wfg_pin_mux_top", regs := [
    { rname := "OUTPUT_SEL_0", addr := 0x46000,
      fields := [⟨"0", 7, 0⟩, ⟨"1", 15, 8⟩, ⟨"2", 23, 16⟩, ⟨"3", 31, 24⟩],
      choices := [],
      selMsb := none, selLsb := none },
    { rname := "OUTPUT_SEL_1", addr := 0x46004,
      fields := [⟨"4", 7, 0⟩, ⟨"5", 15, 8⟩, ⟨"6", 23, 16⟩, ⟨"7", 31, 24⟩],
      choices := [],
      selMsb := none, selLsb := none },
    { rname := "OUTPUT_SEL_2", addr := 0x46008,
      fields := [⟨"8", 7, 0⟩, ⟨"9", 15, 8⟩, ⟨"10", 23, 16⟩, ⟨"11", 31, 24⟩],
      choices := [],
      selMsb := none, selLsb := none },
    { rname := "OUTPUT_SEL_3", addr := 0x4600c,
      fields := [⟨"12", 7, 0⟩, ⟨"13", 15, 8⟩, ⟨"14", 23, 16⟩, ⟨"15", 31, 24⟩],
      choices := [],
      selMsb := none, selLsb := none },
    { rname := "PULLUP_SEL_0", addr := 0x46010,
      fields := [⟨"0", 7, 0⟩, ⟨"1", 15, 8⟩, ⟨"2", 23, 16⟩, ⟨"3", 31, 24⟩],
      choices := [],
      selMsb := none, selLsb := none },
    { rname := "PULLUP_SEL_1", addr := 0x46014,
      fields := [⟨"4", 7, 0⟩, ⟨"5", 15, 8⟩, ⟨"6", 23, 16⟩, ⟨"7", 31, 24⟩],
      choices := [],
      selMsb := none, selLsb := none },
    { rname := "PULLUP_SEL_2", addr := 0x46018,
      fields := [⟨"8", 7, 0⟩, ⟨"9", 15, 8⟩, ⟨"10", 23, 16⟩, ⟨"11", 31, 24⟩],
      choices := [],
      selMsb := none, selLsb := none },
    { rname := "PULLUP_SEL_3", addr := 0x4601c,
      fields := [⟨"12", 7, 0⟩, ⟨"13", 15, 8⟩, ⟨"14", 23, 16⟩, ⟨"15", 31, 24⟩],
      choices := [],
      selMsb := none, selLsb := none },
    { rname := "INPUT_SEL_0", addr := 0x46020,
      fields := [⟨"0", 7, 0⟩, ⟨"1", 15, 8⟩, ⟨"2", 23, 16⟩, ⟨"3", 31, 24⟩],
      choices := [],
      selMsb := none, selLsb := none },
    { rname := "INPUT_SEL_1", addr := 0x46024,
      fields := [⟨"4", 7, 0⟩, ⟨"5", 15, 8⟩, ⟨"6", 23, 16⟩, ⟨"7", 31, 24⟩],
      choices := [],
      selMsb := none, selLsb := none },
    { rname := "INPUT_SEL_2", addr := 0x46028,
      fields := [⟨"8", 7, 0⟩, ⟨"9", 15, 8⟩, ⟨"10", 23, 16⟩, ⟨"11", 31, 24⟩],
      choices := [],
      selMsb := none, selLsb := none },
    { rname := "INPUT_SEL_3", addr := 0x4602c,
      fields := [⟨"12", 7, 0⟩, ⟨"13", 15, 8⟩, ⟨"14", 23, 16⟩, ⟨"15", 31, 24⟩],
      choices := [],
      selMsb := none, selLsb := none },
    { rname := "MIRROR_OUTPUT", addr := 0x46030,
      fields := [⟨"VAL", 15, 0⟩],
      choices := [],
      selMsb := none, selLsb := none },
    { rname := "MIRROR_PULLUP", addr := 0x46034,
      fields := [⟨"VAL", 15, 0⟩],
      choices := [],
      selMsb := none, selLsb := none },
    { rname := "MIRROR_INPUT", addr := 0x46038,
      fields := [⟨"VAL", 15, 0⟩],
      choices := [],
      selMsb := none, selLsb := none },
    { rname := "PIN_IR_RISING", addr := 0x46090,
      fields := [⟨"VAL", 15, 0⟩],
      choices := [],
      selMsb := none, selLsb := none },
    { rname := "PIN_IR_FALLING", addr := 0x46094,
      fields := [⟨"VAL", 15, 0⟩],
      choices := [],
      selMsb := none, selLsb := none },
    { rname := "ISR", addr := 0x460a0,
      fields := [⟨"PIN", 15, 0⟩],
      choices := [],
      selMsb := none, selLsb := none },
    { rname := "IER", addr := 0x460a4,
      fields := [⟨"PIN", 15, 0⟩],
      choices := [],
      selMsb := none, selLsb := none },
    { rname := "ICR", addr := 0x460a8,
      fields := [⟨"PIN", 15, 0⟩],
      choices := [],
      selMsb := none, selLsb := none },
    { rname := "MODULE_INFO", addr := 0x460fc,
      fields := [⟨"PATCH", 7, 0⟩, ⟨"MINOR", 15, 8⟩, ⟨"MAJOR", 23, 16⟩, ⟨"TYPE", 27, 27⟩, ⟨"BLOCK", 31, 28⟩],
      choices := [],
      selMsb := none, selLsb := none }
  ] },
  { mname := "wfg_sysctrl_reg", regs := [
    { rname := "PRODUCT", addr := 0x48000,
      fields := [⟨"ID", 31, 0⟩],
      choices := [],
      selMsb := none, selLsb := none },
    { rname := "FPGA_VERSION", addr := 0x48004,
      fields := [⟨"PATCH", 7, 0⟩, ⟨"MINOR", 15, 8⟩, ⟨"MAJOR", 23, 16⟩, ⟨"DEV", 24, 24⟩],
      choices := [],
      selMsb := none, selLsb := none },
    { rname := "GENDATE", addr := 0x48008,
      fields := [⟨"YEAR", 10, 0⟩, ⟨"MONTH", 14, 11⟩, ⟨"DAY", 19, 15⟩, ⟨"HOUR", 23, 20⟩, ⟨"MINUTE", 29, 24⟩],
      choices := [],
      selMsb := none, selLsb := none },
    { rname := "CLK_SPEED", addr := 0x4800c,
      fields := [⟨"VAL", 7, 0⟩],
      choices := [],
      selMsb := none, selLsb := none },
    { rname := "SOC_CTRL", addr := 0x48010,
      fields := [⟨"FETCH_ENABLE", 0, 0⟩, ⟨"CORE_RESET_N", 1, 1⟩],
      choices := [],
      selMsb := none, selLsb := none },
    { rname := "SOC_STATUS", addr := 0x48014,
      fields := [⟨"CORE_SLEEP", 0, 0⟩],
      choices := [],
      selMsb := none, selLsb := none },
    { rname := "RESET_FLAGS", addr := 0x48020,
      fields := [⟨"WFG", 0, 0⟩, ⟨"SOC", 1, 1⟩],
      choices := [],
      selMsb := none, selLsb := none },
    { rname := "RESET_CLEARS", addr := 0x48024,
      fields := [⟨"WFG", 0, 0⟩, ⟨"SOC", 1, 1⟩],
      choices := [],
      selMsb := none, selLsb := none },
    { rname := "ISR", addr := 0x480a0,
      fields := [⟨"WISHBONE_INVALID_ADDRESS", 0, 0⟩],
      choices := [],
      selMsb := none, selLsb := none },
    { rname := "IER", addr := 0x480a4,
      fields := [⟨"WISHBONE_INVALID_ADDRESS", 0, 0⟩],
      choices := [],
      selMsb := none, selLsb := none },
    { rname := "ICR", addr := 0x480a8,
      fields := [⟨"WISHBONE_INVALID_ADDRESS", 0, 0⟩],
      choices := [],
      selMsb := none, selLsb := none },
    { rname := "INTERRUPT_MIRROR", addr := 0x480b0,
      fields := [⟨"VECTOR", 31, 0⟩],
      choices := [],
      selMsb := none, selLsb := none },
    { rname := "MODULE_INFO", addr := 0x480fc,
      fields := [⟨"PATCH", 7, 0⟩, ⟨"MINOR", 15, 8⟩, ⟨"MAJOR", 23, 16⟩, ⟨"TYPE", 27, 27⟩, ⟨"BLOCK", 31, 28⟩],
      choices := [],
      selMsb := none, selLsb := none }
  ] },
  { mname := "wfg_stim_mem_top_0", regs := [
    { rname := "CTRL", addr := 0x60000,
      fields := [⟨"EN", 0, 0⟩],
      choices := [],
      selMsb := none, selLsb := none },
    { rname := "CFG", addr := 0x60004,
      fields := [⟨"CNT", 7, 0⟩],
      choices := [],
      selMsb := none, selLsb := none },
    { rname := "START", addr := 0x60008,
      fields := [⟨"VAL", 12, 0⟩],
      choices := [],
      selMsb := none, selLsb := none },
    { rname := "STOP", addr := 0x6000c,
      fields := [⟨"VAL", 13, 0⟩],
      choices := [],
      selMsb := none, selLsb := none },
    { rname := "STEP", addr := 0x60010,
      fields := [⟨"VAL", 12, 0⟩],
      choices := [],
      selMsb := none, selLsb := none },
    { rname := "ADDR", addr := 0x60014,
      fields := [⟨"VAL", 12, 0⟩],
      choices := [],
      selMsb := none, selLsb := none },
    { rname := "GAIN", addr := 0x60018,
      fields := [⟨"VAL", 15, 0⟩],
      choices := [],
      selMsb := none, selLsb := none },
    { rname := "OFFSET", addr := 0x6001c,
      fields := [⟨"VAL", 31, 0⟩],
      choices := [],
      selMsb := none, selLsb := none },
    { rname := "ISR", addr := 0x600a0,
      fields := [⟨"DONE", 0, 0⟩, ⟨"END", 1, 1⟩],
      choices := [],
      selMsb := none, selLsb := none },
    { rname := "IER", addr := 0x600a4,
      fields := [⟨"DONE", 0, 0⟩, ⟨"END", 1, 1⟩],
      choices := [],
      selMsb := none, selLsb := none },
    { rname := "ICR", addr := 0x600a8,
      fields := [⟨"DONE", 0, 0⟩, ⟨"END", 1, 1⟩],
      choices := [],
      selMsb := none, selLsb := none },
    { rname := "MODULE_INFO", addr := 0x600fc,
      fields := [⟨"PATCH", 7, 0⟩, ⟨"MINOR", 15, 8⟩, ⟨"MAJOR", 23, 16⟩, ⟨"TYPE", 27, 27⟩, ⟨"BLOCK", 31, 28⟩],
      choices := [],
      selMsb := none, selLsb := none }
  ] },
  { mname := "wfg_stim_mem_top_1", regs := [
    { rname := "CTRL", addr := 0x60100,
      fields := [⟨"EN", 0, 0⟩],
      choices := [],
      selMsb := none, selLsb := none },
    { rname := "CFG", addr := 0x60104,
      fields := [⟨"CNT", 7, 0⟩],
      choices := [],
      selMsb := none, selLsb := none },
    { rname := "START", addr := 0x60108,
      fields := [⟨"VAL", 12, 0⟩],
      choices := [],
      selMsb := none, selLsb := none },
    { rname := "STOP", addr := 0x6010c,
      fields := [⟨"VAL", 13, 0⟩],
      choices := [],
      selMsb := none, selLsb := none },
    { rname := "STEP", addr := 0x60110,
      fields := [⟨"VAL", 12, 0⟩],
      choices := [],
      selMsb := none, selLsb := none },
    { rname := "ADDR", addr := 0x60114,
      fields := [⟨"VAL", 12, 0⟩],
      choices := [],
      selMsb := none, selLsb := none },
    { rname := "GAIN", addr := 0x60118,
      fields := [⟨"VAL", 15, 0⟩],
      choices := [],
      selMsb := none, selLsb := none },
    { rname := "OFFSET", addr := 0x6011c,
      fields := [⟨"VAL", 31, 0⟩],
      choices := [],
      selMsb := none, selLsb := none },
    { rname := "ISR", addr := 0x601a0,
      fields := [⟨"DONE", 0, 0⟩, ⟨"END", 1, 1⟩],
      choices := [],
      selMsb := none, selLsb := none },
    { rname := "IER", addr := 0x601a4,
      fields := [⟨"DONE", 0, 0⟩, ⟨"END", 1, 1⟩],
      choices := [],
      selMsb := none, selLsb := none },
    { rname := "ICR", addr := 0x601a8,
      fields := [⟨"DONE", 0, 0⟩, ⟨"END", 1, 1⟩],
      choices := [],
      selMsb := none, selLsb := none },
    { rname := "MODULE_INFO", addr := 0x601fc,
      fields := [⟨"PATCH", 7, 0⟩, ⟨"MINOR", 15, 8⟩, ⟨"MAJOR", 23, 16⟩, ⟨"TYPE", 27, 27⟩, ⟨"BLOCK", 31, 28⟩],
      choices := [],
      selMsb := none, selLsb := none }
  ] },
  { mname := "wfg_stim_mem_top_2", regs := [
    { rname := "CTRL", addr := 0x60200,
      fields := [⟨"EN", 0, 0⟩],
      choices := [],
      selMsb := none, selLsb := none },
    { rname := "CFG", addr := 0x60204,
      fields := [⟨"CNT", 7, 0⟩],
      choices := [],
      selMsb := none, selLsb := none },
    { rname := "START", addr := 0x60208,
      fields := [⟨"VAL", 12, 0⟩],
      choices := [],
      selMsb := none, selLsb := none },
    { rname := "STOP", addr := 0x6020c,
      fields := [⟨"VAL", 13, 0⟩],
      choices := [],
      selMsb := none, selLsb := none },
    { rname := "STEP", addr := 0x60210,
      fields := [⟨"VAL", 12, 0⟩],
      choices := [],
      selMsb := none, selLsb := none },
    { rname := "ADDR", addr := 0x60214,
      fields := [⟨"VAL", 12, 0⟩],
      choices := [],
      selMsb := none, selLsb := none },
    { rname := "GAIN", addr := 0x60218,
      fields := [⟨"VAL", 15, 0⟩],
      choices := [],
      selMsb := none, selLsb := none },
    { rname := "OFFSET", addr := 0x6021c,
      fields := [⟨"VAL", 31, 0⟩],
      choices := [],
      selMsb := none, selLsb := none },
    { rname := "ISR", addr := 0x602a0,
      fields := [⟨"DONE", 0, 0⟩, ⟨"END", 1, 1⟩],
      choices := [],
      selMsb := none, selLsb := none },
    { rname := "IER", addr := 0x602a4,
      fields := [⟨"DONE", 0, 0⟩, ⟨"END", 1, 1⟩],
      choices := [],
      selMsb := none, selLsb := none },
    { rname := "ICR", addr := 0x602a8,
      fields := [⟨"DONE", 0, 0⟩, ⟨"END", 1, 1⟩],
      choices := [],
      selMsb := none, selLsb := none },
    { rname := "MODULE_INFO", addr := 0x602fc,
      fields := [⟨"PATCH", 7, 0⟩, ⟨"MINOR", 15, 8⟩, ⟨"MAJOR", 23, 16⟩, ⟨"TYPE", 27, 27⟩, ⟨"BLOCK", 31, 28⟩],
      choices := [],
      selMsb := none, selLsb := none }
  ] },
  { mname := "wfg_stim_mem_top_3", regs := [
    { rname := "CTRL", addr := 0x60300,
      fields := [⟨"EN", 0, 0⟩],
      choices := [],
      selMsb := none, selLsb := none },
    { rname := "CFG", addr := 0x60304,
      fields := [⟨"CNT", 7, 0⟩],
      choices := [],
      selMsb := none, selLsb := none },
    { rname := "START", addr := 0x60308,
      fields := [⟨"VAL", 12, 0⟩],
      choices := [],
      selMsb := none, selLsb := none },
    { rname := "STOP", addr := 0x6030c,
      fields := [⟨"VAL", 13, 0⟩],
      choices := [],
      selMsb := none, selLsb := none },
    { rname := "STEP", addr := 0x60310,
      fields := [⟨"VAL", 12, 0⟩],
      choices := [],
      selMsb := none, selLsb := none },
    { rname := "ADDR", addr := 0x60314,
      fields := [⟨"VAL", 12, 0⟩],
      choices := [],
      selMsb := none, selLsb := none },
    { rname := "GAIN", addr := 0x60318,
      fields := [⟨"VAL", 15, 0⟩],
      choices := [],
      selMsb := none, selLsb := none },
    { rname := "OFFSET", addr := 0x6031c,
      fields := [⟨"VAL", 31, 0⟩],
      choices := [],
      selMsb := none, selLsb := none },
    { rname := "ISR", addr := 0x603a0,
      fields := [⟨"DONE", 0, 0⟩, ⟨"END", 1, 1⟩],
      choices := [],
      selMsb := none, selLsb := none },
    { rname := "IER", addr := 0x603a4,
      fields := [⟨"DONE", 0, 0⟩, ⟨"END", 1, 1⟩],
      choices := [],
      selMsb := none, selLsb := none },
    { rname := "ICR", addr := 0x603a8,
      fields := [⟨"DONE", 0, 0⟩, ⟨"END", 1, 1⟩],
      choices := [],
      selMsb := none, selLsb := none },
    { rname := "MODULE_INFO", addr := 0x603fc,
      fields := [⟨"PATCH", 7, 0⟩, ⟨"MINOR", 15, 8⟩, ⟨"MAJOR", 23, 16⟩, ⟨"TYPE", 27, 27⟩, ⟨"BLOCK", 31, 28⟩],
      choices := [],
      selMsb := none, selLsb := none }
  ] },
  { mname := "wfg_drive_spi_top_0", regs := [
    { rname := "CTRL", addr := 0x80000,
      fields := [⟨"EN", 0, 0⟩],
      choices := [],
      selMsb := none, selLsb := none },
    { rname := "CFG", addr := 0x80004,
      fields := [⟨"CPOL", 0, 0⟩, ⟨"CPHA", 1, 1⟩, ⟨"LSBFIRST", 2, 2⟩, ⟨"SSPOL", 3, 3⟩, ⟨"CORE_SEL", 4, 4⟩, ⟨"CORE_DEPENDENT", 5, 5⟩, ⟨"IO_DELAY_COMPENSATION", 8, 6⟩],
      choices := [],
      selMsb := none, selLsb := none },
    { rname := "CLKCFG", addr := 0x80008,
      fields := [⟨"DIV", 31, 0⟩],
      choices := [],
      selMsb := none, selLsb := none },
    { rname := "SPI_LEN", addr := 0x8000c,
      fields := [⟨"VAL", 5, 0⟩],
      choices := [],
      selMsb := none, selLsb := none },
    { rname := "CS_HIGH_TIME", addr := 0x80010,
      fields := [⟨"VAL", 31, 0⟩],
      choices := [],
      selMsb := none, selLsb := none },
    { rname := "CS_ACTIVE_DELAY_TIME", addr := 0x80014,
      fields := [⟨"VAL", 31, 0⟩],
      choices := [],
      selMsb := none, selLsb := none },
    { rname := "MODULE_INFO", addr := 0x800fc,
      fields := [⟨"PATCH", 7, 0⟩, ⟨"MINOR", 15, 8⟩, ⟨"MAJOR", 23, 16⟩, ⟨"TYPE", 27, 27⟩, ⟨"BLOCK", 31, 28⟩],
      choices := [],
      selMsb := none, selLsb := none }
  ] },
  { mname := "wfg_drive_spi_top_1", regs := [
    { rname := "CTRL", addr := 0x80100,
      fields := [⟨"EN", 0, 0⟩],
      choices := [],
      selMsb := none, selLsb := none },
    { rname := "CFG", addr := 0x80104,
      fields := [⟨"CPOL", 0, 0⟩, ⟨"CPHA", 1, 1⟩, ⟨"LSBFIRST", 2, 2⟩, ⟨"SSPOL", 3, 3⟩, ⟨"CORE_SEL", 4, 4⟩, ⟨"CORE_DEPENDENT", 5, 5⟩, ⟨"IO_DELAY_COMPENSATION", 8, 6⟩],
      choices := [],
      selMsb := none, selLsb := none },
    { rname := "CLKCFG", addr := 0x80108,
      fields := [⟨"DIV", 31, 0⟩],
      choices := [],
      selMsb := none, selLsb := none },
    { rname := "SPI_LEN", addr := 0x8010c,
      fields := [⟨"VAL", 5, 0⟩],
      choices := [],
      selMsb := none, selLsb := none },
    { rname := "CS_HIGH_TIME", addr := 0x80110,
      fields := [⟨"VAL", 31, 0⟩],
      choices := [],
      selMsb := none, selLsb := none },
    { rname := "CS_ACTIVE_DELAY_TIME", addr := 0x80114,
      fields := [⟨"VAL", 31, 0⟩],
      choices := [],
      selMsb := none, selLsb := none },
    { rname := "MODULE_INFO", addr := 0x801fc,
      fields := [⟨"PATCH", 7, 0⟩, ⟨"MINOR", 15, 8⟩, ⟨"MAJOR", 23, 16⟩, ⟨"TYPE", 27, 27⟩, ⟨"BLOCK", 31, 28⟩],
      choices := [],
      selMsb := none, selLsb := none }
  ] },
  { mname := "wfg_drive_pat_top_0", regs := [
    { rname := "CTRL", addr := 0x82000,
      fields := [⟨"EN", 15, 0⟩],
      choices := [],
      selMsb := none, selLsb := none },
    { rname := "CFG", addr := 0x82004,
      fields := [⟨"BEGIN", 7, 0⟩, ⟨"END", 15, 8⟩, ⟨"CORE_SEL", 16, 16⟩],
      choices := [],
      selMsb := none, selLsb := none },
    { rname := "PATSEL0", addr := 0x82008,
      fields := [⟨"LOW", 15, 0⟩],
      choices := [],
      selMsb := none, selLsb := none },
    { rname := "PATSEL1", addr := 0x8200c,
      fields := [⟨"HIGH", 15, 0⟩],
      choices := [],
      selMsb := none, selLsb := none },
    { rname := "MODULE_INFO", addr := 0x820fc,
      fields := [⟨"PATCH", 7, 0⟩, ⟨"MINOR", 15, 8⟩, ⟨"MAJOR", 23, 16⟩, ⟨"TYPE", 27, 27⟩, ⟨"BLOCK", 31, 28⟩],
      choices := [],
      selMsb := none, selLsb := none }
  ] },
  { mname := "wfg_drive_i2c_top_0", regs := [
    { rname := "CTRL", addr := 0x84000,
      fields := [⟨"EN", 0, 0⟩],
      choices := [],
      selMsb := none, selLsb := none },
    { rname := "CFG", addr := 0x84004,
      fields := [⟨"DEV_ID", 6, 0⟩, ⟨"WAIT_STATE_ENABLED", 8, 8⟩, ⟨"CORE_SEL", 16, 16⟩, ⟨"CORE_DEPENDENT", 17, 17⟩],
      choices := [],
      selMsb := none, selLsb := none },
    { rname := "CLKCFG", addr := 0x84008,
      fields := [⟨"DIV", 31, 0⟩],
      choices := [],
      selMsb := none, selLsb := none },
    { rname := "ISR", addr := 0x840a0,
      fields := [⟨"COMMAND_FRAME_ERROR", 0, 0⟩, ⟨"DATA_FRAME_ERROR", 1, 1⟩],
      choices := [],
      selMsb := none, selLsb := none },
    { rname := "IER", addr := 0x840a4,
      fields := [⟨"COMMAND_FRAME_ERROR", 0, 0⟩, ⟨"DATA_FRAME_ERROR", 1, 1⟩],
      choices := [],
      selMsb := none, selLsb := none },
    { rname := "ICR", addr := 0x840a8,
      fields := [⟨"COMMAND_FRAME_ERROR", 0, 0⟩, ⟨"DATA_FRAME_ERROR", 1, 1⟩],
      choices := [],
      selMsb := none, selLsb := none },
    { rname := "MODULE_INFO", addr := 0x840fc,
      fields := [⟨"PATCH", 7, 0⟩, ⟨"MINOR", 15, 8⟩, ⟨"MAJOR", 23, 16⟩, ⟨"TYPE", 27, 27⟩, ⟨"BLOCK", 31, 28⟩],
      choices := [],
      selMsb := none, selLsb := none }
  ] },
  { mname := "wfg_drive_i2c_top_1", regs := [
    { rname := "CTRL", addr := 0x84100,
      fields := [⟨"EN", 0, 0⟩],
      choices := [],
      selMsb := none, selLsb := none },
    { rname := "CFG", addr := 0x84104,
      fields := [⟨"DEV_ID", 6, 0⟩, ⟨"WAIT_STATE_ENABLED", 8, 8⟩, ⟨"CORE_SEL", 16, 16⟩, ⟨"CORE_DEPENDENT", 17, 17⟩],
      choices := [],
      selMsb := none, selLsb := none },
    { rname := "CLKCFG", addr := 0x84108,
      fields := [⟨"DIV", 31, 0⟩],
      choices := [],
      selMsb := none, selLsb := none },
    { rname := "ISR", addr := 0x841a0,
      fields := [⟨"COMMAND_FRAME_ERROR", 0, 0⟩, ⟨"DATA_FRAME_ERROR", 1, 1⟩],
      choices := [],
      selMsb := none, selLsb := none },
    { rname := "IER", addr := 0x841a4,
      fields := [⟨"COMMAND_FRAME_ERROR", 0, 0⟩, ⟨"DATA_FRAME_ERROR", 1, 1⟩],
      choices := [],
      selMsb := none, selLsb := none },
    { rname := "ICR", addr := 0x841a8,
      fields := [⟨"COMMAND_FRAME_ERROR", 0, 0⟩, ⟨"DATA_FRAME_ERROR", 1, 1⟩],
      choices := [],
      selMsb := none, selLsb := none },
    { rname := "MODULE_INFO", addr := 0x841fc,
      fields := [⟨"PATCH", 7, 0⟩, ⟨"MINOR", 15, 8⟩, ⟨"MAJOR", 23, 16⟩, ⟨"TYPE", 27, 27⟩, ⟨"BLOCK", 31, 28⟩],
      choices := [],
      selMsb := none, selLsb := none }
  ] },
  { mname := "wfg_drive_i2ct_top_0", regs := [
    { rname := "CTRL", addr := 0x88000,
      fields := [⟨"EN", 0, 0⟩],
      choices := [],
      selMsb := none, selLsb := none },
    { rname := "CFG", addr := 0x88004,
      fields := [⟨"DEVID", 7, 1⟩, ⟨"ADDRSIZE", 8, 8⟩, ⟨"DATASIZE", 17, 16⟩],
      choices := [],
      selMsb := none, selLsb := none },
    { rname := "REGCFG", addr := 0x88010,
      fields := [⟨"AUTOINC", 0, 0⟩],
      choices := [],
      selMsb := none, selLsb := none },
    { rname := "REGADDR", addr := 0x88014,
      fields := [⟨"ADDR", 15, 0⟩],
      choices := [],
      selMsb := none, selLsb := none },
    { rname := "REGWDATA", addr := 0x88018,
      fields := [⟨"DATA", 31, 0⟩],
      choices := [],
      selMsb := none, selLsb := none },
    { rname := "REGWMASK", addr := 0x8801c,
      fields := [⟨"MASK", 31, 0⟩],
      choices := [],
      selMsb := none, selLsb := none },
    { rname := "REGRDATA", addr := 0x88020,
      fields := [⟨"DATA", 31, 0⟩],
      choices := [],
      selMsb := none, selLsb := none },
    { rname := "REGRMASK", addr := 0x88024,
      fields := [⟨"MASK", 31, 0⟩],
      choices := [],
      selMsb := none, selLsb := none }
  ] },
  { mname := "wfg_drive_uart_top_0", regs := [
    { rname := "CTRL", addr := 0x86000,
      fields := [⟨"EN", 0, 0⟩, ⟨"", 31, 31⟩],
      choices := [],
      selMsb := none, selLsb := none },
    { rname := "CFG", addr := 0x86004,
      fields := [⟨"CORE_SEL", 0, 0⟩, ⟨"TXSIZE", 4, 1⟩, ⟨"CORE_DEPENDENT", 7, 7⟩, ⟨"CDIV", 31, 8⟩],
      choices := [],
      selMsb := none, selLsb := none },
    { rname := "CFG2", addr := 0x86008,
      fields := [⟨"PARITY_SEL", 1, 0⟩, ⟨"STOP_SEL", 3, 2⟩, ⟨"TX_DELAY", 19, 4⟩, ⟨"SHIFT_DIR", 20, 20⟩],
      choices := [],
      selMsb := none, selLsb := none },
    { rname := "RX_CFG", addr := 0x8600c,
      fields := [⟨"TIMEOUT", 9, 0⟩],
      choices := [],
      selMsb := none, selLsb := none },
    { rname := "ISR", addr := 0x860a0,
      fields := [⟨"TIMEOUT_REACHED", 0, 0⟩, ⟨"FRAME_ERROR", 1, 1⟩],
      choices := [],
      selMsb := none, selLsb := none },
    { rname := "IER", addr := 0x860a4,
      fields := [⟨"TIMEOUT_REACHED", 0, 0⟩, ⟨"FRAME_ERROR", 1, 1⟩],
      choices := [],
      selMsb := none, selLsb := none },
    { rname := "ICR", addr := 0x860a8,
      fields := [⟨"TIMEOUT_REACHED", 0, 0⟩, ⟨"FRAME_ERROR", 1, 1⟩],
      choices := [],
      selMsb := none, selLsb := none },
    { rname := "MODULE_INFO", addr := 0x860fc,
      fields := [⟨"PATCH", 7, 0⟩, ⟨"MINOR", 15, 8⟩, ⟨"MAJOR", 23, 16⟩, ⟨"TYPE", 27, 27⟩, ⟨"BLOCK", 31, 28⟩],
      choices := [],
      selMsb := none, selLsb := none }
  ] },
  { mname := "wfg_drive_uart_top_1", regs := [
    { rname := "CTRL", addr := 0x86100,
      fields := [⟨"EN", 0, 0⟩, ⟨"", 31, 31⟩],
      choices := [],
      selMsb := none, selLsb := none },
    { rname := "CFG", addr := 0x86104,
      fields := [⟨"CORE_SEL", 0, 0⟩, ⟨"TXSIZE", 4, 1⟩, ⟨"CORE_DEPENDENT", 7, 7⟩, ⟨"CDIV", 31, 8⟩],
      choices := [],
      selMsb := none, selLsb := none },
    { rname := "CFG2", addr := 0x86108,
      fields := [⟨"PARITY_SEL", 1, 0⟩, ⟨"STOP_SEL", 3, 2⟩, ⟨"TX_DELAY", 19, 4⟩, ⟨"SHIFT_DIR", 20, 20⟩],
      choices := [],
      selMsb := none, selLsb := none },
    { rname := "RX_CFG", addr := 0x8610c,
      fields := [⟨"TIMEOUT", 9, 0⟩],
      choices := [],
      selMsb := none, selLsb := none },
    { rname := "ISR", addr := 0x861a0,
      fields := [⟨"TIMEOUT_REACHED", 0, 0⟩, ⟨"FRAME_ERROR", 1, 1⟩],
      choices := [],
      selMsb := none, selLsb := none },
    { rname := "IER", addr := 0x861a4,
      fields := [⟨"TIMEOUT_REACHED", 0, 0⟩, ⟨"FRAME_ERROR", 1, 1⟩],
      choices := [],
      selMsb := none, selLsb := none },
    { rname := "ICR", addr := 0x861a8,
      fields := [⟨"TIMEOUT_REACHED", 0, 0⟩, ⟨"FRAME_ERROR", 1, 1⟩],
      choices := [],
      selMsb := none, selLsb := none },
    { rname := "MODULE_INFO", addr := 0x861fc,
      fields := [⟨"PATCH", 7, 0⟩, ⟨"MINOR", 15, 8⟩, ⟨"MAJOR", 23, 16⟩, ⟨"TYPE", 27, 27⟩, ⟨"BLOCK", 31, 28⟩],
      choices := [],
      selMsb := none, selLsb := none }
  ] },
  { mname := "wfg_record_mem_top_0", regs := [
    { rname := "CTRL", addr := 0xa0000,
      fields := [⟨"EN", 0, 0⟩],
      choices := [],
      selMsb := none, selLsb := none },
    { rname := "CFG", addr := 0xa0004,
      fields := [⟨"CNT", 7, 0⟩],
      choices := [],
      selMsb := none, selLsb := none },
    { rname := "START", addr := 0xa0008,
      fields := [⟨"VAL", 12, 0⟩],
      choices := [],
      selMsb := none, selLsb := none },
    { rname := "STOP", addr := 0xa000c,
      fields := [⟨"VAL", 12, 0⟩],
      choices := [],
      selMsb := none, selLsb := none },
    { rname := "STEP", addr := 0xa0010,
      fields := [⟨"VAL", 12, 0⟩],
      choices := [],
      selMsb := none, selLsb := none },
    { rname := "ADDR", addr := 0xa0014,
      fields := [⟨"VAL", 12, 0⟩],
      choices := [],
      selMsb := none, selLsb := none },
    { rname := "ISR", addr := 0xa00a0,
      fields := [⟨"DONE", 0, 0⟩, ⟨"END", 1, 1⟩],
      choices := [],
      selMsb := none, selLsb := none },
    { rname := "IER", addr := 0xa00a4,
      fields := [⟨"DONE", 0, 0⟩, ⟨"END", 1, 1⟩],
      choices := [],
      selMsb := none, selLsb := none },
    { rname := "ICR", addr := 0xa00a8,
      fields := [⟨"DONE", 0, 0⟩, ⟨"END", 1, 1⟩],
      choices := [],
      selMsb := none, selLsb := none },
    { rname := "MODULE_INFO", addr := 0xa00fc,
      fields := [⟨"PATCH", 7, 0⟩, ⟨"MINOR", 15, 8⟩, ⟨"MAJOR", 23, 16⟩, ⟨"TYPE", 27, 27⟩, ⟨"BLOCK", 31, 28⟩],
      choices := [],
      selMsb := none, selLsb := none }
  ] },
  { mname := "wfg_record_mem_top_1", regs := [
    { rname := "CTRL", addr := 0xa0100,
      fields := [⟨"EN", 0, 0⟩],
      choices := [],
      selMsb := none, selLsb := none },
    { rname := "CFG", addr := 0xa0104,
      fields := [⟨"CNT", 7, 0⟩],
      choices := [],
      selMsb := none, selLsb := none },
    { rname := "START", addr := 0xa0108,
      fields := [⟨"VAL", 12, 0⟩],
      choices := [],
      selMsb := none, selLsb := none },
    { rname := "STOP", addr := 0xa010c,
      fields := [⟨"VAL", 12, 0⟩],
      choices := [],
      selMsb := none, selLsb := none },
    { rname := "STEP", addr := 0xa0110,
      fields := [⟨"VAL", 12, 0⟩],
      choices := [],
      selMsb := none, selLsb := none },
    { rname := "ADDR", addr := 0xa0114,
      fields := [⟨"VAL", 12, 0⟩],
      choices := [],
      selMsb := none, selLsb := none },
    { rname := "ISR", addr := 0xa01a0,
      fields := [⟨"DONE", 0, 0⟩, ⟨"END", 1, 1⟩],
      choices := [],
      selMsb := none, selLsb := none },
    { rname := "IER", addr := 0xa01a4,
      fields := [⟨"DONE", 0, 0⟩, ⟨"END", 1, 1⟩],
      choices := [],
      selMsb := none, selLsb := none },
    { rname := "ICR", addr := 0xa01a8,
      fields := [⟨"DONE", 0, 0⟩, ⟨"END", 1, 1⟩],
      choices := [],
      selMsb := none, selLsb := none },
    { rname := "MODULE_INFO", addr := 0xa01fc,
      fields := [⟨"PATCH", 7, 0⟩, ⟨"MINOR", 15, 8⟩, ⟨"MAJOR", 23, 16⟩, ⟨"TYPE", 27, 27⟩, ⟨"BLOCK", 31, 28⟩],
      choices := [],
      selMsb := none, selLsb := none }
  ] },
  { mname := "wfg_record_mem_top_2", regs := [
    { rname := "CTRL", addr := 0xa0200,
      fields := [⟨"EN", 0, 0⟩],
      choices := [],
      selMsb := none, selLsb := none },
    { rname := "CFG", addr := 0xa0204,
      fields := [⟨"CNT", 7, 0⟩],
      choices := [],
      selMsb := none, selLsb := none },
    { rname := "START", addr := 0xa0208,
      fields := [⟨"VAL", 12, 0⟩],
      choices := [],
      selMsb := none, selLsb := none },
    { rname := "STOP", addr := 0xa020c,
      fields := [⟨"VAL", 12, 0⟩],
      choices := [],
      selMsb := none, selLsb := none },
    { rname := "STEP", addr := 0xa0210,
      fields := [⟨"VAL", 12, 0⟩],
      choices := [],
      selMsb := none, selLsb := none },
    { rname := "ADDR", addr := 0xa0214,
      fields := [⟨"VAL", 12, 0⟩],
      choices := [],
      selMsb := none, selLsb := none },
    { rname := "ISR", addr := 0xa02a0,
      fields := [⟨"DONE", 0, 0⟩, ⟨"END", 1, 1⟩],
      choices := [],
      selMsb := none, selLsb := none },
    { rname := "IER", addr := 0xa02a4,
      fields := [⟨"DONE", 0, 0⟩, ⟨"END", 1, 1⟩],
      choices := [],
      selMsb := none, selLsb := none },
    { rname := "ICR", addr := 0xa02a8,
      fields := [⟨"DONE", 0, 0⟩, ⟨"END", 1, 1⟩],
      choices := [],
      selMsb := none, selLsb := none },
    { rname := "MODULE_INFO", addr := 0xa02fc,
      fields := [⟨"PATCH", 7, 0⟩, ⟨"MINOR", 15, 8⟩, ⟨"MAJOR", 23, 16⟩, ⟨"TYPE", 27, 27⟩, ⟨"BLOCK", 31, 28⟩],
      choices := [],
      selMsb := none, selLsb := none }
  ] },
  { mname := "wfg_record_mem_top_3", regs := [
    { rname := "CTRL", addr := 0xa0300,
      fields := [⟨"EN", 0, 0⟩],
      choices := [],
      selMsb := none, selLsb := none },
    { rname := "CFG", addr := 0xa0304,
      fields := [⟨"CNT", 7, 0⟩],
      choices := [],
      selMsb := none, selLsb := none },
    { rname := "START", addr := 0xa0308,
      fields := [⟨"VAL", 12, 0⟩],
      choices := [],
      selMsb := none, selLsb := none },
    { rname := "STOP", addr := 0xa030c,
      fields := [⟨"VAL", 12, 0⟩],
      choices := [],
      selMsb := none, selLsb := none },
    { rname := "STEP", addr := 0xa0310,
      fields := [⟨"VAL", 12, 0⟩],
      choices := [],
      selMsb := none, selLsb := none },
    { rname := "ADDR", addr := 0xa0314,
      fields := [⟨"VAL", 12, 0⟩],
      choices := [],
      selMsb := none, selLsb := none },
    { rname := "ISR", addr := 0xa03a0,
      fields := [⟨"DONE", 0, 0⟩, ⟨"END", 1, 1⟩],
      choices := [],
      selMsb := none, selLsb := none },
    { rname := "IER", addr := 0xa03a4,
      fields := [⟨"DONE", 0, 0⟩, ⟨"END", 1, 1⟩],
      choices := [],
      selMsb := none, selLsb := none },
    { rname := "ICR", addr := 0xa03a8,
      fields := [⟨"DONE", 0, 0⟩, ⟨"END", 1, 1⟩],
      choices := [],
      selMsb := none, selLsb := none },
    { rname := "MODULE_INFO", addr := 0xa03fc,
      fields := [⟨"PATCH", 7, 0⟩, ⟨"MINOR", 15, 8⟩, ⟨"MAJOR", 23, 16⟩, ⟨"TYPE", 27, 27⟩, ⟨"BLOCK", 31, 28⟩],
      choices := [],
      selMsb := none, selLsb := none }
  ] }
]
/-- Look up a module of `FPGA_Reg.registers` by name (Python dict indexing
`FPGA_Reg.registers[m]`). -/
def lookupModule (m : String) : Option RegModule :=
  registers.find? (fun md => md.mname == m)

/-- Look up a register by module and register name
(`FPGA_Reg.registers[m][r]`). -/
def lookupReg (m r : String) : Option Reg :=
  (lookupModule m).bind (fun md => md.regs.find? (fun rg => rg.rname == r))

/-- Look up a field entry (`FPGA_Reg.registers[m][r][f]`). -/
def fieldOf (m r f : String) : Option RegField :=
  (lookupReg m r).bind (fun rg => rg.fields.find? (fun fl => fl.fname == f))

/-- Address of a register (`FPGA_Reg.registers[m][r]["addr"]`);
defaults to 0, never taken on the keys the scripts use. -/
def regAddr (m r : String) : Nat :=
  ((lookupReg m r).map Reg.addr).getD 0

/-- LSB of a field (`FPGA_Reg.registers[m][r][f]["LSB"]`);
defaults to 0, never taken on the keys the scripts use. -/
def fieldLSB (m r f : String) : Nat :=
  ((fieldOf m r f).map RegField.LSB).getD 0

/-- Enumerant value of a label in a selector register
(`FPGA_Reg.registers[m][r][label]`). -/
def choiceVal (m r label : String) : Option Nat :=
  (lookupReg m r).bind (fun rg =>
    (rg.choices.find? (fun c => c.1 == label)).map Prod.snd)

/-- All-ones 32-bit mask. -/
def mask32 : Nat := 2 ^ 32 - 1

/-- Modelled from the spec (§4.1 BitfieldCodec): the repository has no
standalone codec (the bring-up script inlines shifts), so `decode` follows
the spec formula `(word >> lsb) & ((1 << (msb-lsb+1)) - 1)`. -/
def decode (word : Nat) (f : RegField) : Nat :=
  (word >>> f.LSB) &&& ((1 <<< (f.MSB - f.LSB + 1)) - 1)

/-- The word produced by a successful encode: `current_word` with bits
`[lsb, msb]` cleared and replaced by `value << lsb`, all within 32 bits. -/
def encodeRaw (word : Nat) (f : RegField) (value : Nat) : Nat :=
  (word &&& (mask32 ^^^ (((1 <<< (f.MSB - f.LSB + 1)) - 1) <<< f.LSB))) |||
    (value <<< f.LSB)

/-- Modelled from the spec (§4.1 BitfieldCodec): `encode` fails with
`ValueOutOfRange` if `value` does not fit in the bit width of the field,
otherwise returns `current_word` with bits `[lsb, msb]` cleared and
replaced by `value << lsb`. -/
def encode (word : Nat) (f : RegField) (value : Nat) : Except RegError Nat :=
  if 1 <<< (f.MSB - f.LSB + 1) ≤ value then .error .ValueOutOfRange
  else .ok (encodeRaw word f value)

/-- Modelled from the spec (§4.2 RegisterMap): the repository has no
`resolve` function (scripts index the dicts directly), so `resolve` follows
the spec contract: look up module, register and optionally field, returning
`(address, msb, lsb)`; an omitted field selects the full word (31, 0). -/
def resolve (m r : String) (f : Option String) :
    Except RegError (Nat × Nat × Nat) :=
  match lookupModule m with
  | none => .error .UnknownModule
  | some md =>
    match md.regs.find? (fun rg => rg.rname == r) with
    | none => .error .UnknownRegister
    | some rg =>
      match f with
      | none => .ok (rg.addr, 31, 0)
      | some fn =>
        match rg.fields.find? (fun fl => fl.fname == fn) with
        | none => .error .UnknownField
        | some fl => .ok (rg.addr, fl.MSB, fl.LSB)

/-- Modelled from the spec (§4.3 InterconnectSelector): the repository has
no `route` function, so `route` follows the spec contract: look up
`label` in the choices of the selector (`UnknownRoute` if absent) and return the
enumerant packed via the codec into the full-register field of the selector. -/
def route (r : Reg) (label : String) : Except RegError Nat :=
  match r.choices.find? (fun c => c.1 == label) with
  | none => .error .UnknownRoute
  | some c => encode 0 ⟨label, r.selMsb.getD 31, r.selLsb.getD 0⟩ c.2

/-- The banked pin-mux register `<direction>_SEL_<bank>` of module
`wfg_pin_mux_top`. -/
def pinMuxBank (direction : String) (bank : Nat) : Option Reg :=
  lookupReg "wfg_pin_mux_top" (direction ++ "_SEL_" ++ toString bank)

/-- The sub-field of the pin-mux table holding `lane`: field `str(lane)`
of bank register `<direction>_SEL_<lane / 4>`. -/
def pinMuxField (direction : String) (lane : Nat) : Option RegField :=
  (pinMuxBank direction (lane / 4)).bind
    (fun rg => rg.fields.find? (fun fl => fl.fname == toString lane))

/-- Addresses of the four bank registers of a direction category. -/
def bankAddrs (direction : String) : List Nat :=
  (List.range 4).filterMap (fun b => (pinMuxBank direction b).map Reg.addr)

/-- Modelled from the spec (§4.4 PinMuxTable): the repository has no
`assign` function, so `assign` follows the spec contract: fail with
`LaneOutOfRange` if `lane > 15`, else resolve bank register
`lane / 4` for the direction and return its address together with the
8-bit sub-field bounds `(8*(lane%4)+7, 8*(lane%4))`; `pin_id` is the value
later written into that sub-field and does not affect resolution. -/
def assign (direction : String) (lane _pin_id : Nat) :
    Except RegError (Nat × Nat × Nat) :=
  if 15 < lane then .error .LaneOutOfRange
  else
    match pinMuxBank direction (lane / 4) with
    | none => .error .UnknownRegister
    | some rg => .ok (rg.addr, 8 * (lane % 4) + 7, 8 * (lane % 4))

/-- Write trace of `i2ct_conf` (mcp9808_sens_emulation.py): the `(address,
word)` pairs passed to `sw.writeFPGARegister`, in order, each word
assembled exactly as in the source by OR-ing values shifted by the LSBs
taken from the table (read-backs issue no writes and are omitted). -/
def i2ct_conf : List (Nat × Nat) :=
  [ (regAddr "wfg_drive_i2ct_top_0" "CFG",
      (0x18 <<< fieldLSB "wfg_drive_i2ct_top_0" "CFG" "DEVID") |||
        (0b01 <<< fieldLSB "wfg_drive_i2ct_top_0" "CFG" "DATASIZE")),
    (regAddr "wfg_drive_i2ct_top_0" "REGADDR",
      0x07 <<< fieldLSB "wfg_drive_i2ct_top_0" "REGADDR" "ADDR"),
    (regAddr "wfg_drive_i2ct_top_0" "REGWDATA",
      0x37 <<< fieldLSB "wfg_drive_i2ct_top_0" "REGWDATA" "DATA"),
    (regAddr "wfg_drive_i2ct_top_0" "CTRL",
      1 <<< fieldLSB "wfg_drive_i2ct_top_0" "CTRL" "EN") ]

/-- Write trace of `i2ct_amb_temp` (mcp9808_sens_emulation.py) for a given
`ta_data`: sets `REGADDR` to the ambient-temperature register 0x05, then
writes `ta_data` shifted into the `DATA` field of `REGWDATA`.  The source
performs no range check on `ta_data` before either write. -/
def i2ct_amb_temp (ta_data : Nat) : List (Nat × Nat) :=
  [ (regAddr "wfg_drive_i2ct_top_0" "REGADDR",
      0x05 <<< fieldLSB "wfg_drive_i2ct_top_0" "REGADDR" "ADDR"),
    (regAddr "wfg_drive_i2ct_top_0" "REGWDATA",
      ta_data <<< fieldLSB "wfg_drive_i2ct_top_0" "REGWDATA" "DATA") ]

/-- Write trace of `pin_mux_conf` (mcp9808_sens_emulation.py): routes the
I2C-target lines onto lanes 0 and 1 of the input, output and pull-up
`_SEL_0` registers, in that order. -/
def pin_mux_conf : List (Nat × Nat) :=
  [ (regAddr "wfg_pin_mux_top" "INPUT_SEL_0",
      (3 <<< fieldLSB "wfg_pin_mux_top" "INPUT_SEL_0" "0") |||
        (2 <<< fieldLSB "wfg_pin_mux_top" "INPUT_SEL_0" "1")),
    (regAddr "wfg_pin_mux_top" "OUTPUT_SEL_0",
      (6 <<< fieldLSB "wfg_pin_mux_top" "OUTPUT_SEL_0" "0") |||
        (5 <<< fieldLSB "wfg_pin_mux_top" "OUTPUT_SEL_0" "1")),
    (regAddr "wfg_pin_mux_top" "PULLUP_SEL_0",
      (1 <<< fieldLSB "wfg_pin_mux_top" "PULLUP_SEL_0" "0") |||
        (1 <<< fieldLSB "wfg_pin_mux_top" "PULLUP_SEL_0" "1")) ]

/-- Registers of the interconnect module. -/
def interconnectRegs : List Reg :=
  ((lookupModule "wfg_interconnect_top").map RegModule.regs).getD []

/-- Fields of the pin-mux register at a given address. -/
def fieldsAtAddr (a : Nat) : List RegField :=
  ((((lookupModule "wfg_pin_mux_top").map RegModule.regs).getD []).find?
      (fun rg => rg.addr == a)).map Reg.fields |>.getD []
/-- Within every module of the table, the register addresses are pairwise
distinct. -/
theorem addrNodup : ∀ m ∈ registers, (m.regs.map Reg.addr).Nodup := by decide

/-- Claim C1: the static register table is well-formed — every field entry
of every module satisfies 0 ≤ LSB ≤ MSB ≤ 31, and inside any one module
two register entries with different names never share an address. -/
theorem C1_table_wellformed :
    (∀ m ∈ registers, ∀ r ∈ m.regs, ∀ f ∈ r.fields,
        0 ≤ f.LSB ∧ f.LSB ≤ f.MSB ∧ f.MSB ≤ 31) ∧
    (∀ m ∈ registers, ∀ r₁ ∈ m.regs, ∀ r₂ ∈ m.regs,
        r₁.rname ≠ r₂.rname → r₁.addr ≠ r₂.addr) := by
  refine ⟨by decide, ?_⟩
  intro m hm r₁ h₁ r₂ h₂ hname haddr
  exact hname
    (congrArg Reg.rname (List.inj_on_of_nodup_map (addrNodup m hm) h₁ h₂ haddr))

/-- Witness for C1 at concrete inputs: the EN field of wfg_core_top.CTRL is
in range, and CTRL and CFG of wfg_core_top have different addresses. -/
theorem C1_table_wellformed_witness :
    (0 ≤ ((fieldOf "wfg_core_top" "CTRL" "EN").getD ⟨"", 0, 0⟩).LSB ∧
      ((fieldOf "wfg_core_top" "CTRL" "EN").getD ⟨"", 0, 0⟩).LSB ≤
        ((fieldOf "wfg_core_top" "CTRL" "EN").getD ⟨"", 0, 0⟩).MSB ∧
      ((fieldOf "wfg_core_top" "CTRL" "EN").getD ⟨"", 0, 0⟩).MSB ≤ 31) ∧
    ((lookupReg "wfg_core_top" "CTRL").getD ⟨"", 0, [], [], none, none⟩).addr ≠
      ((lookupReg "wfg_core_top" "CFG").getD ⟨"", 0, [], [], none, none⟩).addr :=
  ⟨C1_table_wellformed.1
      ((lookupModule "wfg_core_top").getD ⟨"", []⟩) (by decide)
      ((lookupReg "wfg_core_top" "CTRL").getD ⟨"", 0, [], [], none, none⟩) (by decide)
      ((fieldOf "wfg_core_top" "CTRL" "EN").getD ⟨"", 0, 0⟩) (by decide),
    C1_table_wellformed.2
      ((lookupModule "wfg_core_top").getD ⟨"", []⟩) (by decide)
      ((lookupReg "wfg_core_top" "CTRL").getD ⟨"", 0, [], [], none, none⟩) (by decide)
      ((lookupReg "wfg_core_top" "CFG").getD ⟨"", 0, [], [], none, none⟩) (by decide)
      (by decide)⟩

/-- Claim C2: the pin-mux table places every lane 0..15 of every direction
category in bank register `<direction>_SEL_(lane / 4)` as the field named
`str(lane)` with MSB = 8*(lane % 4)+7 and LSB = 8*(lane % 4); each category
uses exactly 4 distinct bank addresses holding 4 lanes each; a lane greater
than 15 fails with LaneOutOfRange; and each mirror/interrupt register holds
a single 16-bit field (MSB = 15, LSB = 0). -/
theorem C2_pin_mux_table :
    (∀ d ∈ ["OUTPUT", "PULLUP", "INPUT"],
        (∀ lane : Nat, lane ≤ 15 →
          pinMuxField d lane =
            some ⟨toString lane, 8 * (lane % 4) + 7, 8 * (lane % 4)⟩) ∧
        (bankAddrs d).Nodup ∧ (bankAddrs d).length = 4 ∧
        (∀ b : Nat, b ≤ 3 →
          ((pinMuxBank d b).map (fun rg => rg.fields.length)).getD 0 = 4)) ∧
    (∀ d : String, ∀ lane pid : Nat, 15 < lane →
        assign d lane pid = .error .LaneOutOfRange) ∧
    (∀ rn ∈ ["MIRROR_OUTPUT", "MIRROR_PULLUP", "MIRROR_INPUT", "PIN_IR_RISING",
        "PIN_IR_FALLING", "ISR", "IER", "ICR"],
        (lookupReg "wfg_pin_mux_top" rn).map
          (fun rg => rg.fields.map (fun fl => (fl.MSB, fl.LSB))) =
            some [(15, 0)]) := by
  refine ⟨by decide, ?_, by decide⟩
  intro d lane pid h
  unfold assign
  rw [if_pos h]

/-- Witness for C2 at concrete inputs: lane 5 of OUTPUT, lane 16 failure,
and the ISR register layout. -/
theorem C2_pin_mux_table_witness :
    pinMuxField "OUTPUT" 5 =
      some ⟨toString 5, 8 * (5 % 4) + 7, 8 * (5 % 4)⟩ ∧
    assign "OUTPUT" 16 0 = .error .LaneOutOfRange ∧
    (lookupReg "wfg_pin_mux_top" "ISR").map
      (fun rg => rg.fields.map (fun fl => (fl.MSB, fl.LSB))) = some [(15, 0)] :=
  ⟨(C2_pin_mux_table.1 "OUTPUT" (by decide)).1 5 (by decide),
    C2_pin_mux_table.2.1 "OUTPUT" 16 0 (by decide),
    C2_pin_mux_table.2.2 "ISR" (by decide)⟩

/-- Claim C3: every interconnect selector register contains the choice
label "disconnect" mapped to 0, its enumerant field occupies MSB = 7,
LSB = 0, and routing via "disconnect" always yields the word 0. -/
theorem C3_disconnect_always_zero :
    ∀ r ∈ interconnectRegs,
      ("disconnect", 0) ∈ r.choices ∧ r.selMsb = some 7 ∧ r.selLsb = some 0 ∧
      route r "disconnect" = .ok 0 := by decide

/-- Witness for C3 at a concrete selector register. -/
theorem C3_disconnect_always_zero_witness :
    route ((lookupReg "wfg_interconnect_top" "wfg_record_mem_top_0_select_0").getD
      ⟨"", 0, [], [], none, none⟩) "disconnect" = .ok 0 :=
  (C3_disconnect_always_zero _ (by decide)).2.2.2

/-- Claim C4: for every field with 0 ≤ lsb ≤ msb ≤ 31, every 32-bit word
and every in-range value, encode succeeds, decode recovers the value, and
every bit outside [lsb, msb] of the encoded word equals the corresponding
bit of the original word. -/
theorem C4_codec_roundtrip (f : RegField) (hm : f.MSB ≤ 31) (hl : f.LSB ≤ f.MSB)
    (word value : Nat) (hw : word < 2 ^ 32)
    (hv : value < 2 ^ (f.MSB - f.LSB + 1)) :
    encode word f value = .ok (encodeRaw word f value) ∧
    decode (encodeRaw word f value) f = value ∧
    ∀ i : Nat, i < f.LSB ∨ f.MSB < i →
      (encodeRaw word f value).testBit i = word.testBit i := by
  refine ⟨?_, ?_, ?_⟩
  · simp only [encode]
    rw [if_neg (by rw [Nat.one_shiftLeft]; exact Nat.not_le.mpr hv)]
  · apply Nat.eq_of_testBit_eq
    intro j
    simp only [decode, encodeRaw, mask32, Nat.one_shiftLeft,
      Nat.testBit_shiftRight, Nat.testBit_and, Nat.testBit_or, Nat.testBit_xor,
      Nat.testBit_shiftLeft, Nat.testBit_two_pow_sub_one]
    have e1 : f.LSB + j - f.LSB = j := by omega
    have e2 : decide (f.LSB + j ≥ f.LSB) = true :=
      decide_eq_true (Nat.le_add_right _ _)
    rw [e1, e2]
    by_cases hj : j < f.MSB - f.LSB + 1
    · have h32 : f.LSB + j < 32 := by omega
      rw [decide_eq_true hj, decide_eq_true h32]
      simp
    · rw [decide_eq_false hj]
      have hvb : value.testBit j = false :=
        Nat.testBit_lt_two_pow
          (lt_of_lt_of_le hv (Nat.pow_le_pow_right (by norm_num) (by omega)))
      rw [hvb]
      simp
  · intro i hi
    simp only [encodeRaw, mask32, Nat.one_shiftLeft, Nat.testBit_and,
      Nat.testBit_or, Nat.testBit_xor, Nat.testBit_shiftLeft,
      Nat.testBit_two_pow_sub_one]
    have hvb : value.testBit (i - f.LSB) = false ∨ i < f.LSB := by
      rcases hi with hlt | hgt
      · exact Or.inr hlt
      · exact Or.inl (Nat.testBit_lt_two_pow
          (lt_of_lt_of_le hv (Nat.pow_le_pow_right (by norm_num) (by omega))))
    by_cases h32 : i < 32
    · rw [decide_eq_true h32]
      rcases hi with hlt | hgt
      · rw [decide_eq_false (Nat.not_le.mpr hlt)]
        simp
      · have hnw : ¬ (i - f.LSB < f.MSB - f.LSB + 1) := by omega
        rw [decide_eq_false hnw]
        rcases hvb with hvb | hcontra
        · rw [hvb]
          simp
        · omega
    · rw [decide_eq_false h32]
      have hword : word.testBit i = false :=
        Nat.testBit_lt_two_pow
          (lt_of_lt_of_le hw (Nat.pow_le_pow_right (by norm_num) (by omega)))
      have hnw : ¬ (i - f.LSB < f.MSB - f.LSB + 1) := by omega
      have hvb2 : value.testBit (i - f.LSB) = false :=
        Nat.testBit_lt_two_pow
          (lt_of_lt_of_le hv (Nat.pow_le_pow_right (by norm_num) (by omega)))
      rw [decide_eq_false hnw, hvb2, hword]
      simp

/-- Witness for C4 at the scenario of the spec: field (msb = 8, lsb = 6),
word 0xFFFFFFFF, value 5. -/
theorem C4_codec_roundtrip_witness :
    encode 0xFFFFFFFF ⟨"", 8, 6⟩ 5 = .ok (encodeRaw 0xFFFFFFFF ⟨"", 8, 6⟩ 5) ∧
    decode (encodeRaw 0xFFFFFFFF ⟨"", 8, 6⟩ 5) ⟨"", 8, 6⟩ = 5 ∧
    (encodeRaw 0xFFFFFFFF ⟨"", 8, 6⟩ 5).testBit 5 = Nat.testBit 0xFFFFFFFF 5 :=
  have h := C4_codec_roundtrip ⟨"", 8, 6⟩ (by decide) (by decide)
    0xFFFFFFFF 5 (by decide) (by decide)
  ⟨h.1, h.2.1, h.2.2 5 (Or.inl (by decide))⟩

/-- Counterexample to C5 as stated: the DATA field of REGWDATA spans
[31:0], so 2^32 is out of range for it, yet `i2ct_amb_temp` issues both
transport writes, silently passing 2^32 through — no ValueOutOfRange
failure exists anywhere in the script. -/
theorem C5_counterexample :
    fieldOf "wfg_drive_i2ct_top_0" "REGWDATA" "DATA" = some ⟨"DATA", 31, 0⟩ ∧
    ¬ (2 ^ 32 < 2 ^ (31 - 0 + 1)) ∧
    i2ct_amb_temp (2 ^ 32) = [(0x88014, 0x5), (0x88018, 2 ^ 32)] := by
  refine ⟨by decide, by decide, by decide⟩

/-- Claim C5 as amended: the field writes of the emulation script perform
no range validation — for every ta_data, `i2ct_amb_temp` unconditionally
issues its two transport writes, the second carrying ta_data shifted into
the DATA field unchecked; no write path can fail with ValueOutOfRange. -/
theorem C5_no_range_check (ta_data : Nat) :
    i2ct_amb_temp ta_data = [(0x88014, 0x5), (0x88018, ta_data)] := rfl

/-- Counterexample to C6 as stated: in the record-mem selector 0, label
wfg_drive_i2c_top_1 maps to 0x22, not 0x21. -/
theorem C6_counterexample :
    choiceVal "wfg_interconnect_top" "wfg_record_mem_top_0_select_0"
      "wfg_drive_i2c_top_1" = some 0x22 ∧ (0x22 : Nat) ≠ 0x21 := by decide

/-- Claim C6 as amended: in every record-mem selector register, the
producer labels wfg_drive_i2c_top_0 and wfg_drive_i2ct_top_0 map to the
same numeric value 0x21. -/
theorem C6_shared_value :
    ∀ rn ∈ ["wfg_record_mem_top_0_select_0", "wfg_record_mem_top_1_select_0",
        "wfg_record_mem_top_2_select_0", "wfg_record_mem_top_3_select_0"],
      choiceVal "wfg_interconnect_top" rn "wfg_drive_i2c_top_0" = some 0x21 ∧
      choiceVal "wfg_interconnect_top" rn "wfg_drive_i2ct_top_0" = some 0x21 := by
  decide

/-- Witness for the amended C6 at the first record-mem selector. -/
theorem C6_shared_value_witness :
    choiceVal "wfg_interconnect_top" "wfg_record_mem_top_0_select_0"
      "wfg_drive_i2c_top_0" = some 0x21 ∧
    choiceVal "wfg_interconnect_top" "wfg_record_mem_top_0_select_0"
      "wfg_drive_i2ct_top_0" = some 0x21 :=
  C6_shared_value "wfg_record_mem_top_0_select_0" (by decide)

/-- Claim C7: the named lookups of the spec scenarios resolve to the
specified address/msb/lsb triples. -/
theorem C7_resolve_scenarios :
    resolve "wfg_core_top" "CTRL" (some "EN") = .ok (0x40000, 0, 0) ∧
    resolve "wfg_drive_spi_top_0" "CFG" (some "CPHA") = .ok (0x80004, 1, 1) :=
  ⟨rfl, rfl⟩

/-- Claim C8: `i2ct_conf` issues exactly four writes, in order — CFG word
0x10030 (DEVID = 0x18, DATASIZE = 1, ADDRSIZE = 0, no other bits set),
REGADDR word 0x7, REGWDATA word 0x37, and last the CTRL enable word 0x1. -/
theorem C8_i2ct_conf_writes :
    i2ct_conf =
      [(0x88004, 0x10030), (0x88014, 0x7), (0x88018, 0x37), (0x88000, 0x1)] ∧
    i2ct_conf.getLast? = some (0x88000, 0x1) ∧
    regAddr "wfg_drive_i2ct_top_0" "CTRL" = 0x88000 ∧
    (fieldOf "wfg_drive_i2ct_top_0" "CFG" "DEVID").map (decode 0x10030) =
      some 0x18 ∧
    (fieldOf "wfg_drive_i2ct_top_0" "CFG" "DATASIZE").map (decode 0x10030) =
      some 1 ∧
    (fieldOf "wfg_drive_i2ct_top_0" "CFG" "ADDRSIZE").map (decode 0x10030) =
      some 0 ∧
    (0x10030 : Nat) = (0x18 <<< 1) ||| (1 <<< 16) := by decide

/-- Claim C9: `pin_mux_conf` issues exactly three writes, in order —
0x203 to INPUT_SEL_0, 0x506 to OUTPUT_SEL_0, 0x101 to PULLUP_SEL_0; each
word only sets the sub-fields of lanes 0 and 1 (every other sub-field of
the written registers decodes to 0), and no bank register other than the
three _SEL_0 registers is written. -/
theorem C9_pin_mux_conf_writes :
    pin_mux_conf = [(0x46020, 0x203), (0x46000, 0x506), (0x46010, 0x101)] ∧
    (∀ p ∈ pin_mux_conf, p.2 < 2 ^ 16) ∧
    (∀ p ∈ pin_mux_conf, ∀ fl ∈ fieldsAtAddr p.1,
        fl.fname ≠ "0" → fl.fname ≠ "1" → decode p.2 fl = 0) ∧
    (∀ d ∈ ["OUTPUT", "PULLUP", "INPUT"], ∀ b ∈ [1, 2, 3],
        ∀ p ∈ pin_mux_conf,
          ((pinMuxBank d b).map Reg.addr).getD 0 ≠ p.1) := by decide

/-- Witness for C9 at concrete inputs: the INPUT_SEL_0 write. -/
theorem C9_pin_mux_conf_writes_witness :
    ((0x46020, 0x203) : Nat × Nat).2 < 2 ^ 16 ∧
    decode 0x203 ⟨"2", 23, 16⟩ = 0 ∧
    ((pinMuxBank "OUTPUT" 1).map Reg.addr).getD 0 ≠
      ((0x46020, 0x203) : Nat × Nat).1 :=
  ⟨C9_pin_mux_conf_writes.2.1 (0x46020, 0x203) (by decide),
    C9_pin_mux_conf_writes.2.2.1 (0x46020, 0x203) (by decide)
      ⟨"2", 23, 16⟩ (by decide) (by decide) (by decide),
    C9_pin_mux_conf_writes.2.2.2 "OUTPUT" (by decide) 1 (by decide)
      (0x46020, 0x203) (by decide)⟩

/-- The identifier columns of the two static pin tables contain no
duplicates. -/
theorem pinsNodup :
    (output_pins.map Prod.snd).Nodup ∧ (input_pins.map Prod.snd).Nodup := by
  decide

/-- Claim C10: the static pin tables are injective within each direction —
no two logical pin names of output_pins (resp. input_pins) share a pin
identifier — and every identifier fits in 8 bits. -/
theorem C10_pin_tables_injective :
    (∀ p ∈ output_pins, ∀ q ∈ output_pins, p.1 ≠ q.1 → p.2 ≠ q.2) ∧
    (∀ p ∈ input_pins, ∀ q ∈ input_pins, p.1 ≠ q.1 → p.2 ≠ q.2) ∧
    (∀ p ∈ output_pins, p.2 ≤ 255) ∧ (∀ p ∈ input_pins, p.2 ≤ 255) := by
  refine ⟨?_, ?_, by decide, by decide⟩
  · intro p hp q hq hne heq
    exact hne
      (congrArg Prod.fst (List.inj_on_of_nodup_map pinsNodup.1 hp hq heq))
  · intro p hp q hq hne heq
    exact hne
      (congrArg Prod.fst (List.inj_on_of_nodup_map pinsNodup.2 hp hq heq))

/-- Witness for C10 at concrete table entries. -/
theorem C10_pin_tables_injective_witness :
    (("wfg_drive_spi_top_0_sclk", 32) : String × Nat).2 ≠
      (("wfg_drive_spi_top_0_cs", 31) : String × Nat).2 ∧
    (("wfg_drive_uart_top_1_rx", 0) : String × Nat).2 ≤ 255 :=
  ⟨C10_pin_tables_injective.1 ("wfg_drive_spi_top_0_sclk", 32) (by decide)
      ("wfg_drive_spi_top_0_cs", 31) (by decide) (by decide),
    C10_pin_tables_injective.2.2.2 ("wfg_drive_uart_top_1_rx", 0) (by decide)⟩
end FPGA_Reg
